import Mathlib

/-!
Verification of the energy-consumption advisor in `src/main.py`.

Shallow embedding conventions:
* Python floats are modelled as exact rationals (`ℚ`); Python ints as `ℤ`.
* The historical dataset is an external CSV (the spec treats the loader as a
  black box).  `get_consumption_level` in the source computes
  `statistics.mean` and `statistics.stdev` of per-person consumption over that
  dataset; since the standard deviation is a square root, we parametrise the
  embedded functions by the derived pair `(mean, stddev)` (`Stats`).  Every
  realisable dataset yields some such pair with `0 ≤ stddev`; conversely the
  per-person sample `[m - s, m, m + s]` has mean `m` and sample standard
  deviation `s` (see `mean_three_point` / `sampleVar_three_point` below), so
  quantifying over rational stats pairs covers the dataset-derived ones.
* Fallible Python operations (ZeroDivisionError, KeyError, NameError) are
  modelled with `Except PyErr`.
* `str.strip` is modelled by `pyStrip`; `str.lower` by `pyLower`
  (ASCII letters plus the accented Spanish capitals that occur in the
  program keyword strings); `int(...)`/`float(...)` by `pyInt`/`pyFloat`
  (sign, digits, decimal point, exponent; the Python underscore separators and
  `inf`/`nan` literals are outside the float-as-rational abstraction);
  `f"{x:.2f}"` by `fmt2` (round half to even at two decimals); `str(float)`
  by `pyFloatStr` (exact decimal expansion when it terminates).
-/

/-- Model of `str.lower` restricted to ASCII letters and the accented
Spanish capitals appearing in the program strings. -/
def pyCharLower (c : Char) : Char :=
  if 'A' ≤ c ∧ c ≤ 'Z' then Char.ofNat (c.toNat + 32)
  else if c = 'Á' then 'á'
  else if c = 'É' then 'é'
  else if c = 'Í' then 'í'
  else if c = 'Ó' then 'ó'
  else if c = 'Ú' then 'ú'
  else if c = 'Ñ' then 'ñ'
  else c

/-- Model of `str.lower` (character-wise). -/
def pyLower (s : String) : String :=
  String.mk (s.toList.map pyCharLower)

/-- Model of `str.upper` on a single character (ASCII range). -/
def pyCharUpper (c : Char) : Char :=
  if 'a' ≤ c ∧ c ≤ 'z' then Char.ofNat (c.toNat - 32) else c

/-- Model of `str.capitalize` (first character upper, rest lower). -/
def pyCapitalize (s : String) : String :=
  match s.toList with
  | [] => ""
  | c :: r => String.mk (pyCharUpper c :: r.map pyCharLower)

/-- Python whitespace characters stripped by `str.strip`. -/
def isPySpace (c : Char) : Bool :=
  c = ' ' || c = '\t' || c = '\n' || c = '\r' || c = '\x0b' || c = '\x0c'

/-- Remove leading whitespace from a character list. -/
def dropSpaces : List Char → List Char
  | [] => []
  | c :: r => if isPySpace c then dropSpaces r else c :: r

/-- Model of `str.strip` (no arguments): remove leading and trailing
whitespace. -/
def pyStrip (s : String) : String :=
  String.mk ((dropSpaces (dropSpaces s.toList).reverse).reverse)

/-- Model of the Python substring test `needle in hay`. -/
def strHasSub (hay needle : String) : Bool :=
  let h := hay.toList
  let n := needle.toList
  (List.range (h.length + 1)).any (fun i => n == (h.drop i).take n.length)

/-- Digits-to-number accumulator used by the numeric parsers. -/
def natOf (l : List Char) : ℕ :=
  l.foldl (fun a c => a * 10 + (c.toNat - 48)) 0

/-- Model of Python `int(str)`: optional surrounding whitespace, optional
sign, then a nonempty run of decimal digits. -/
def pyInt (s : String) : Option ℤ :=
  match (pyStrip s).toList with
  | '+' :: ds => if ds ≠ [] ∧ ds.all Char.isDigit then some ((natOf ds : ℤ)) else none
  | '-' :: ds => if ds ≠ [] ∧ ds.all Char.isDigit then some (-(natOf ds : ℤ)) else none
  | ds => if ds ≠ [] ∧ ds.all Char.isDigit then some ((natOf ds : ℤ)) else none

/-- Exponent part of a Python float literal (after `e`/`E`). -/
def pyExp (l : List Char) : Option ℤ :=
  match l with
  | '+' :: ds => if ds ≠ [] ∧ ds.all Char.isDigit then some ((natOf ds : ℤ)) else none
  | '-' :: ds => if ds ≠ [] ∧ ds.all Char.isDigit then some (-(natOf ds : ℤ)) else none
  | ds => if ds ≠ [] ∧ ds.all Char.isDigit then some ((natOf ds : ℤ)) else none

/-- Mantissa of a Python float literal: digits with an optional decimal
point; at least one digit overall. -/
def pyMantissa (l : List Char) : Option ℚ :=
  let p := l.span (fun c => c != '.')
  match p.2 with
  | [] => if p.1 ≠ [] ∧ p.1.all Char.isDigit then some ((natOf p.1 : ℚ)) else none
  | _ :: fp =>
    if (p.1 ≠ [] ∨ fp ≠ []) ∧ p.1.all Char.isDigit ∧ fp.all Char.isDigit then
      some ((natOf p.1 : ℚ) + (natOf fp : ℚ) / 10 ^ fp.length)
    else none

/-- Model of Python `float(str)`: optional surrounding whitespace, optional
sign, mantissa, optional exponent. -/
def pyFloat (s : String) : Option ℚ :=
  let t := (pyStrip s).toList
  let sr : ℚ × List Char :=
    match t with
    | '+' :: r => (1, r)
    | '-' :: r => (-1, r)
    | r => (1, r)
  let me := sr.2.span (fun c => c != 'e' && c != 'E')
  match me.2 with
  | [] => (pyMantissa me.1).map (fun m => sr.1 * m)
  | _ :: es =>
    match pyMantissa me.1, pyExp es with
    | some m, some e => some (sr.1 * m * (10 : ℚ) ^ e)
    | _, _ => none

/-- Round half to even, as the Python `format` machinery does at a decimal tie. -/
def roundHalfEven (q : ℚ) : ℤ :=
  let f : ℤ := ⌊q⌋
  let r : ℚ := q - f
  if r < 1 / 2 then f
  else if 1 / 2 < r then f + 1
  else if f % 2 = 0 then f else f + 1

/-- Two-digit zero-padded rendering of `0 ≤ n < 100`. -/
def twoDigitStr (n : ℤ) : String :=
  (if n < 10 then "0" else "") ++ toString n

/-- Model of the f-string format `{x:.2f}`. -/
def fmt2 (q : ℚ) : String :=
  let n := roundHalfEven (q * 100)
  if n < 0 then "-" ++ toString ((-n) / 100) ++ "." ++ twoDigitStr ((-n) % 100)
  else toString (n / 100) ++ "." ++ twoDigitStr (n % 100)

/-- Left-pad a digit string with zeros to width `w`. -/
def padZeros (w : ℕ) (s : String) : String :=
  String.mk (List.replicate (w - s.length) '0') ++ s

/-- Smallest number of decimal digits after the point that renders `q`
exactly, when the expansion terminates. -/
def decDigits (q : ℚ) : Option ℕ :=
  (List.range 18).find? (fun k => (q * 10 ^ (k + 1)).den = 1)

/-- Model of Python `str(float)` for nonnegative values: exact decimal
expansion when it terminates (a fraction fallback otherwise; never reached
by the claims). -/
def pyFloatStrNN (q : ℚ) : String :=
  if q.den = 1 then toString q.num ++ ".0"
  else
    match decDigits q with
    | some k =>
      let m := (q * 10 ^ (k + 1)).num
      toString (m / 10 ^ (k + 1)) ++ "." ++ padZeros (k + 1) (toString (m % 10 ^ (k + 1)))
    | none => toString q.num ++ "/" ++ toString q.den

/-- Model of Python `str(float)`. -/
def pyFloatStr (q : ℚ) : String :=
  if q < 0 then "-" ++ pyFloatStrNN (-q) else pyFloatStrNN q

/-- The dataset-derived statistics used by `get_consumption_level`
(src/main.py lines 29-32): mean and sample standard deviation of
per-person consumption over the historical records. -/
structure Stats where
  mean : ℚ
  stddev : ℚ
deriving DecidableEq

/-- The branch structure of `get_consumption_level` (src/main.py lines
33-38): `"alto"` above `mean + stddev`, `"bajo"` below `mean - stddev`,
otherwise `"normal"`. -/
def levelOf (stats : Stats) (pp : ℚ) : String :=
  if pp > stats.mean + stats.stddev then "alto"
  else if pp < stats.mean - stats.stddev then "bajo"
  else "normal"

/-- Embedding of `get_consumption_level` (src/main.py lines 24-39): returns the level
together with the mean and standard deviation it compared against. -/
def get_consumption_level (stats : Stats) (pp : ℚ) : String × ℚ × ℚ :=
  (levelOf stats pp, stats.mean, stats.stddev)

/-- Python exceptions that can escape the embedded functions. -/
inductive PyErr where
  | zeroDivision
  | keyError
  | nameError
  | invalidInput
deriving DecidableEq

/-- The fixed general recommendations (src/main.py lines 50-55). -/
def generalRecs : List String :=
  ["Apaga las luces cuando no estés en la habitación",
   "Utiliza bombillas LED de bajo consumo",
   "Desconecta los aparatos electrónicos cuando no los uses",
   "Aprovecha la luz natural durante el día"]

/-- The `"alto"` entry of `specific_recommendations` (src/main.py lines 57-62). -/
def altoList (pp : ℚ) : List String :=
  ["Revisa el aislamiento de tu hogar",
   "Programa el termostato a temperaturas más eficientes",
   "El consumo por persona es " ++ fmt2 pp ++ " kWh, intenta reducirlo",
   "Realiza una auditoría energética de tu hogar"]

/-- The `"normal"` entry of `specific_recommendations` (src/main.py lines 63-67). -/
def normalList (pp : ℚ) : List String :=
  ["Usa electrodomésticos en horas valle",
   "Instala temporizadores en equipos de alto consumo",
   "El consumo por persona es " ++ fmt2 pp ++ " kWh"]

/-- The `"bajo"` entry of `specific_recommendations` (src/main.py lines 68-72). -/
def bajoList (pp : ℚ) : List String :=
  ["Continúa con tus buenos hábitos de consumo",
   "Considera instalar paneles solares para ser aún más eficiente",
   "El consumo por persona es " ++ fmt2 pp ++ " kWh"]

/-- The savings note for level `"alto"` (src/main.py line 85). -/
def notaAlto (kwh money price : ℚ) : String :=
  "Siguiendo estas recomendaciones, podrías ahorrar " ++ fmt2 kwh ++
  " kWh, equivalente a $" ++ fmt2 money ++ " al mes (basado en $" ++
  pyFloatStr price ++ "/kWh)."

/-- The savings note for level `"normal"` (src/main.py line 87). -/
def notaNormal (kwh money price : ℚ) : String :=
  "Tu consumo está bien, pero si quieres mejorar aún más, siguiendo estas recomendaciones podrías ahorrar " ++
  fmt2 kwh ++ " kWh, unos $" ++ fmt2 money ++ " al mes (basado en $" ++
  pyFloatStr price ++ "/kWh)."

/-- The dictionary returned by `get_recommendations` (src/main.py lines
90-98); the nested `statistics` dict is flattened into two string fields. -/
structure RecBundle where
  general : List String
  specific : List String
  consumption_level : String
  avg_str : String
  std_str : String
deriving DecidableEq

/-- Embedding of `get_recommendations` (src/main.py lines 41-98).  `people = 0` raises
ZeroDivisionError at `consumption / people`; the `umbral` variable is only
assigned for levels `"alto"`/`"normal"`, so any other non-`"bajo"` level
would be a NameError (provably unreachable). -/
def get_recommendations (stats : Stats) (consumption : ℚ) (people : ℤ)
    (price_per_kwh : ℚ) : Except PyErr RecBundle :=
  if people = 0 then .error .zeroDivision
  else
    let pp := consumption / (people : ℚ)
    let r := get_consumption_level stats pp
    let lvl := r.1
    let avg := r.2.1
    let std := r.2.2
    let specific0 :=
      if lvl = "alto" then altoList pp
      else if lvl = "normal" then normalList pp
      else bajoList pp
    if lvl ≠ "bajo" then
      match (if lvl = "alto" then some (avg + std)
             else if lvl = "normal" then some (avg - std)
             else none) with
      | none => .error .nameError
      | some umbral =>
        let excess := pp - umbral
        if 0 < excess then
          let kwh := excess * (people : ℚ)
          let money := kwh * price_per_kwh
          let note := if lvl = "alto" then notaAlto kwh money price_per_kwh
                      else notaNormal kwh money price_per_kwh
          .ok ⟨generalRecs, specific0 ++ [note], lvl,
               fmt2 avg ++ " kWh", fmt2 std ++ " kWh"⟩
        else
          .ok ⟨generalRecs, specific0, lvl, fmt2 avg ++ " kWh", fmt2 std ++ " kWh"⟩
    else
      .ok ⟨generalRecs, specific0, lvl, fmt2 avg ++ " kWh", fmt2 std ++ " kWh"⟩

/-- The fixed base list of `get_additional_recommendations`
(src/main.py lines 105-111). -/
def extraBase : List String :=
  ["Revisa el mantenimiento de tus equipos de calefacción y refrigeración",
   "Considera utilizar reguladores de voltaje para optimizar el consumo",
   "Implementa un sistema de monitoreo para identificar picos de consumo",
   "Asegúrate de que las ventanas estén bien aisladas",
   "Evalúa la posibilidad de instalar sistemas de energía renovable, como paneles solares"]

/-- The keyword-specific tip appended for `"calefacción"` (src/main.py line 113). -/
def tipCalefaccion : String :=
  "Optimiza el uso de la calefacción, ajusta el termostato y revisa el sistema regularmente."

/-- The keyword-specific tip appended for `"iluminación"` (src/main.py line 115). -/
def tipIluminacion : String :=
  "Considera instalar sensores de movimiento y temporizadores para la iluminación."

/-- The keyword-specific tip appended for `"electrodomésticos"` (src/main.py line 117). -/
def tipElectrodomesticos : String :=
  "Revisa la eficiencia energética de tus electrodomésticos y reemplázalos por modelos más eficientes si es posible."

/-- Embedding of `get_additional_recommendations` (src/main.py lines 100-118): base list
plus one tip per detected keyword, in declaration order. -/
def get_additional_recommendations (details : String) : List String :=
  let l := pyLower details
  let r1 := if strHasSub l "calefacción" then extraBase ++ [tipCalefaccion] else extraBase
  let r2 := if strHasSub l "iluminación" then r1 ++ [tipIluminacion] else r1
  if strHasSub l "electrodomésticos" then r2 ++ [tipElectrodomesticos] else r2

/-- The conversation-state dict threaded through `process_message`
(src/main.py lines 124-221).  `step` is always present (the `/chat`
endpoint defaults it to 0); the other keys are optional. -/
structure ChatState where
  step : ℤ
  name : Option String := none
  people : Option ℤ := none
  consumption : Option ℚ := none
  price_per_kwh : Option ℚ := none
  details : Option String := none
deriving DecidableEq

/-- The state literal `{"step": 0, "name": "Usuario"}` used to reset the
conversation (src/main.py lines 207 and 216). -/
def resetState : ChatState :=
  ⟨0, some "Usuario", none, none, none, none⟩

/-- Embedding of `process_message` (src/main.py lines 124-221).  Step 4 can raise
KeyError (missing `consumption`/`people`/`name` keys in a caller-supplied
state) or propagate ZeroDivisionError from `get_recommendations`; every
other step returns normally.  At step 6 the code stores `details` and then
reassigns the whole state to the reset literal, so the stored value is
dropped; we return the reset literal directly. -/
def process_message (stats : Stats) (state : ChatState) (message : String) :
    Except PyErr (ChatState × String) :=
  let step := state.step
  if step = 0 then
    if (["hola", "hi", "holi"]).contains (pyLower (pyStrip message)) then
      .ok ({state with step := 1}, "¡Hola! ¿Cuál es tu nombre?")
    else
      .ok (state, "Di \x27hola\x27 para comenzar la conversación.")
  else if step = 1 then
    let n := pyStrip message
    .ok ({state with name := some n, step := 2},
         "Encantado, " ++ n ++ ". ¿Cuántas personas hay en tu hogar?")
  else if step = 2 then
    match pyInt message with
    | none => .ok (state, "Por favor, ingresa un número válido para el número de personas.")
    | some people =>
      if people ≤ 0 then
        .ok (state, "Por favor, ingresa un número válido de personas (mayor que 0).")
      else
        .ok ({state with people := some people, step := 3},
             "Perfecto. ¿Cuál es el consumo mensual en kWh?")
  else if step = 3 then
    match pyFloat message with
    | none => .ok (state, "Por favor, ingresa un número válido para el consumo.")
    | some consumption =>
      if consumption ≤ 0 then
        .ok (state, "El consumo debe ser mayor que 0. Inténtalo de nuevo.")
      else
        .ok ({state with consumption := some consumption, step := 4},
             "¿Cuál es el costo por kWh en tu región? (Si no lo sabes, puedes dejar el valor predeterminado de $1000 pesos)")
  else if step = 4 then
    match (if pyStrip message ≠ "" then pyFloat message else some 1000) with
    | none => .ok (state, "Por favor, ingresa un número válido para el costo por kWh.")
    | some price =>
      if price ≤ 0 then
        .ok (state, "El costo por kWh debe ser mayor que 0. Inténtalo de nuevo.")
      else
        let st := {state with price_per_kwh := some price, step := 5}
        match st.consumption with
        | none => .error .keyError
        | some c =>
          match st.people with
          | none => .error .keyError
          | some p =>
            match get_recommendations stats c p price with
            | .error e => .error e
            | .ok recs =>
              match st.name with
              | none => .error .keyError
              | some n =>
                .ok (st, String.intercalate "\n"
                  (["Análisis realizado para " ++ n ++ ":",
                    "Consumo mensual: " ++ pyFloatStr c ++ " kWh con " ++ toString p ++ " personas.",
                    "Nivel de consumo: " ++ pyCapitalize recs.consumption_level,
                    "Recomendaciones generales:"]
                   ++ recs.general.map (fun r => "- " ++ r)
                   ++ ["Recomendaciones específicas:"]
                   ++ recs.specific.map (fun r => "- " ++ r)
                   ++ ["¿Deseas proporcionar más detalles para obtener recomendaciones adicionales? (responde \x27sí\x27 o \x27no\x27)"]))
  else if step = 5 then
    if (["sí", "si"]).contains (pyLower (pyStrip message)) then
      .ok ({state with step := 6},
           "Por favor, proporciona más detalles sobre tu situación (ej. problemas específicos o áreas a mejorar):")
    else
      .ok (resetState,
           "¡Gracias por utilizar nuestro servicio! Si quieres empezar de nuevo, di \x27hola\x27.")
  else if step = 6 then
    let d := pyStrip message
    .ok (resetState, String.intercalate "\n"
      (["Basado en los detalles que proporcionaste, aquí tienes algunas recomendaciones adicionales:"]
       ++ (get_additional_recommendations d).map (fun r => "- " ++ r)
       ++ ["¡Gracias por utilizar nuestro servicio! Si quieres empezar de nuevo, di \x27hola\x27."]))
  else
    .ok (state, "Lo siento, ha ocurrido un error en la conversación.")

/-- Modelled from the spec: the one-shot advice operation (spec section 6)
is not present in src/main.py (only the chat endpoint is); per the spec it
fails with a client error when `consumption <= 0` or `people <= 0` and
otherwise returns the recommendation bundle. -/
def one_shot_advice (stats : Stats) (consumption : ℚ) (people : ℤ)
    (price_per_kwh : ℚ) : Except PyErr RecBundle :=
  if consumption ≤ 0 ∨ people ≤ 0 then .error .invalidInput
  else get_recommendations stats consumption people price_per_kwh

/-- Whether an embedded Python call returned normally. -/
def isOkE {ε α : Type} (r : Except ε α) : Bool :=
  match r with
  | .ok _ => true
  | .error _ => false

/-- State component of a `process_message` result (`none` on an exception). -/
def resultState (r : Except PyErr (ChatState × String)) : Option ChatState :=
  match r with
  | .ok p => some p.1
  | .error _ => none

/-- Reply component of a `process_message` result (`""` on an exception). -/
def resultReply (r : Except PyErr (ChatState × String)) : String :=
  match r with
  | .ok p => p.2
  | .error _ => ""

/-- The message is rejected by `int(...)`-based validation: non-numeric or
non-positive. -/
def badIntB (msg : String) : Bool :=
  match pyInt msg with
  | none => true
  | some n => n ≤ 0

/-- The message is rejected by `float(...)`-based validation: non-numeric
or non-positive. -/
def badFloatB (msg : String) : Bool :=
  match pyFloat msg with
  | none => true
  | some q => q ≤ 0

/-- The validation re-prompts of steps 2, 3 and 4
(src/main.py lines 158, 164, 170, 176, 182, 199). -/
def validationReplies : List String :=
  ["Por favor, ingresa un número válido para el número de personas.",
   "Por favor, ingresa un número válido de personas (mayor que 0).",
   "Por favor, ingresa un número válido para el consumo.",
   "El consumo debe ser mayor que 0. Inténtalo de nuevo.",
   "Por favor, ingresa un número válido para el costo por kWh.",
   "El costo por kWh debe ser mayor que 0. Inténtalo de nuevo."]

/-- Per-person tier order: `"bajo" < "normal" < "alto"`. -/
def tierOrd (lvl : String) : ℕ :=
  if lvl = "alto" then 2 else if lvl = "normal" then 1 else 0

/-- Mean of a list of rationals (`statistics.mean` over exact values). -/
def meanQ (l : List ℚ) : ℚ :=
  l.sum / (l.length : ℚ)

/-- Sample variance of a list of rationals (the square of
`statistics.stdev` over exact values). -/
def sampleVarQ (l : List ℚ) : ℚ :=
  (l.map (fun x => (x - meanQ l) ^ 2)).sum / ((l.length : ℚ) - 1)

/-- The keyword-to-tip table of `get_additional_recommendations`, in
declaration order. -/
def keywordTips : List (String × String) :=
  [("calefacción", tipCalefaccion),
   ("iluminación", tipIluminacion),
   ("electrodomésticos", tipElectrodomesticos)]

/-- The `RecBundle` built for a given level and specific list (shared shape
of all `get_recommendations` return values). -/
def mkBundle (stats : Stats) (lvl : String) (specific : List String) : RecBundle :=
  ⟨generalRecs, specific, lvl, fmt2 stats.mean ++ " kWh", fmt2 stats.stddev ++ " kWh"⟩

/- Batteries marks the `Rat` field operations `@[irreducible]`, which blocks
kernel evaluation of concrete rational arithmetic in `decide`/`rfl` proofs;
restore the default reducibility for the proofs below. -/
set_option allowUnsafeReducibility true in
attribute [semireducible] Rat.add Rat.mul Rat.sub Rat.inv

lemma levelOf_cases (stats : Stats) (pp : ℚ) :
    levelOf stats pp = "alto" ∨ levelOf stats pp = "bajo" ∨ levelOf stats pp = "normal" := by
  unfold levelOf
  split_ifs <;> simp

lemma grec_alto (stats : Stats) (c : ℚ) (p : ℤ) (price : ℚ) (hp : p ≠ 0)
    (hl : levelOf stats (c / (p : ℚ)) = "alto") :
    get_recommendations stats c p price =
      .ok (mkBundle stats "alto"
        (altoList (c / (p : ℚ)) ++
          (if 0 < c / (p : ℚ) - (stats.mean + stats.stddev) then
            [notaAlto ((c / (p : ℚ) - (stats.mean + stats.stddev)) * (p : ℚ))
                      ((c / (p : ℚ) - (stats.mean + stats.stddev)) * (p : ℚ) * price) price]
           else []))) := by
  have e1 := eq_false (by decide : ¬ (("alto" : String) = "bajo"))
  have e2 := eq_true (rfl : ("alto" : String) = "alto")
  have e3 := eq_false (by decide : ¬ (("alto" : String) = "normal"))
  simp only [get_recommendations, get_consumption_level, if_neg hp, hl, e1, e2, e3,
             ne_eq, not_false_eq_true, ite_true, ite_false, if_true, if_false, mkBundle]
  split_ifs <;> simp

lemma grec_normal (stats : Stats) (c : ℚ) (p : ℤ) (price : ℚ) (hp : p ≠ 0)
    (hl : levelOf stats (c / (p : ℚ)) = "normal") :
    get_recommendations stats c p price =
      .ok (mkBundle stats "normal"
        (normalList (c / (p : ℚ)) ++
          (if 0 < c / (p : ℚ) - (stats.mean - stats.stddev) then
            [notaNormal ((c / (p : ℚ) - (stats.mean - stats.stddev)) * (p : ℚ))
                        ((c / (p : ℚ) - (stats.mean - stats.stddev)) * (p : ℚ) * price) price]
           else []))) := by
  have e1 := eq_false (by decide : ¬ (("normal" : String) = "bajo"))
  have e2 := eq_false (by decide : ¬ (("normal" : String) = "alto"))
  have e3 := eq_true (rfl : ("normal" : String) = "normal")
  simp only [get_recommendations, get_consumption_level, if_neg hp, hl, e1, e2, e3,
             ne_eq, not_false_eq_true, ite_true, ite_false, if_true, if_false, mkBundle]
  split_ifs <;> simp

lemma grec_bajo (stats : Stats) (c : ℚ) (p : ℤ) (price : ℚ) (hp : p ≠ 0)
    (hl : levelOf stats (c / (p : ℚ)) = "bajo") :
    get_recommendations stats c p price = .ok (mkBundle stats "bajo" (bajoList (c / (p : ℚ)))) := by
  have e1 := eq_false (by decide : ¬ (("bajo" : String) = "alto"))
  have e2 := eq_false (by decide : ¬ (("bajo" : String) = "normal"))
  have e3 := eq_true (rfl : ("bajo" : String) = "bajo")
  simp only [get_recommendations, get_consumption_level, if_neg hp, hl, e1, e2, e3,
             ne_eq, not_false_eq_true, not_true, ite_true, ite_false, if_true, if_false, mkBundle]

lemma grec_ok_exists (stats : Stats) (c : ℚ) (p : ℤ) (price : ℚ) (hp : p ≠ 0) :
    ∃ b, get_recommendations stats c p price = .ok b := by
  rcases levelOf_cases stats (c / (p : ℚ)) with h | h | h
  · exact ⟨_, grec_alto stats c p price hp h⟩
  · exact ⟨_, grec_bajo stats c p price hp h⟩
  · exact ⟨_, grec_normal stats c p price hp h⟩

lemma pyFloat_of_strip_empty (s : String) (h : pyStrip s = "") : pyFloat s = none := by
  unfold pyFloat
  rw [h]
  rfl

/-- The per-person sample `[m - s, m, m + s]` has mean `m`: any rational
stats pair is realisable by a concrete dataset. -/
lemma mean_three_point (m s : ℚ) : meanQ [m - s, m, m + s] = m := by
  simp [meanQ]
  ring

/-- The per-person sample `[m - s, m, m + s]` has sample variance `s ^ 2`,
hence sample standard deviation `s` for `0 ≤ s`. -/
lemma sampleVar_three_point (m s : ℚ) : sampleVarQ [m - s, m, m + s] = s ^ 2 := by
  simp [sampleVarQ, meanQ]
  ring

/-- C1: for every per-person consumption value, classification against the
dataset-derived mean and (nonnegative) standard deviation returns `"bajo"`
exactly when `per_person < mean - stddev`, `"alto"` exactly when
`per_person > mean + stddev`, and `"normal"` otherwise; in particular both
boundary values `mean + stddev` and `mean - stddev` classify as `"normal"`. -/
theorem C1_classification_boundaries (stats : Stats) (pp : ℚ) (hs : 0 ≤ stats.stddev) :
    ((get_consumption_level stats pp).1 = "bajo" ↔ pp < stats.mean - stats.stddev) ∧
    ((get_consumption_level stats pp).1 = "alto" ↔ stats.mean + stats.stddev < pp) ∧
    ((get_consumption_level stats pp).1 = "normal" ↔
      stats.mean - stats.stddev ≤ pp ∧ pp ≤ stats.mean + stats.stddev) ∧
    (get_consumption_level stats (stats.mean + stats.stddev)).1 = "normal" ∧
    (get_consumption_level stats (stats.mean - stats.stddev)).1 = "normal" := by
  simp only [get_consumption_level, levelOf]
  refine ⟨?_, ?_, ?_, ?_, ?_⟩
  · constructor
    · intro h
      split_ifs at h with h1 h2
      · exact absurd h (by decide)
      · exact h2
      · exact absurd h (by decide)
    · intro h
      rw [if_neg (by linarith), if_pos h]
  · constructor
    · intro h
      split_ifs at h with h1 h2
      · exact h1
      · exact absurd h (by decide)
      · exact absurd h (by decide)
    · intro h
      rw [if_pos h]
  · constructor
    · intro h
      split_ifs at h with h1 h2
      · exact absurd h (by decide)
      · exact absurd h (by decide)
      · exact ⟨not_lt.mp h2, not_lt.mp h1⟩
    · intro h
      rw [if_neg (not_lt.mpr h.2), if_neg (not_lt.mpr h.1)]
  · rw [if_neg (lt_irrefl _), if_neg (by linarith)]
  · rw [if_neg (by linarith), if_neg (lt_irrefl _)]

/-- Witness for C1 at `stats = ⟨100, 10⟩`: both boundary values classify
as `"normal"`. -/
theorem C1_classification_boundaries_witness :
    (get_consumption_level ⟨100, 10⟩ ((100 : ℚ) + 10)).1 = "normal" ∧
    (get_consumption_level ⟨100, 10⟩ ((100 : ℚ) - 10)).1 = "normal" :=
  ⟨(C1_classification_boundaries ⟨100, 10⟩ 0 (by norm_num)).2.2.2.1,
   (C1_classification_boundaries ⟨100, 10⟩ 0 (by norm_num)).2.2.2.2⟩

/-- C6 counterexample: the claim lists six keyword categories (heating,
lighting, appliances, computing equipment, air conditioning, lights), but
for a details string naming lights, air conditioning and computers the code
returns exactly the five base tips - only three keyword categories exist. -/
theorem C6_counterexample :
    get_additional_recommendations "luces aire acondicionado computadores" = extraBase := by
  decide

/-- C6 (amended): extra_tips returns the fixed base list of five tips
followed by exactly one extra tip per matched keyword category among the
three categories heating (`"calefacción"`), lighting (`"iluminación"`) and
appliances (`"electrodomésticos"`), matched case-insensitively as a
substring, in keyword-declaration order; when no keyword matches (including
the empty string) exactly the five base tips are returned. -/
theorem C6_keyword_tips (details : String) :
    get_additional_recommendations details =
      extraBase ++ (keywordTips.filter
        (fun kt => strHasSub (pyLower details) kt.1)).map Prod.snd := by
  unfold get_additional_recommendations keywordTips
  cases h1 : strHasSub (pyLower details) "calefacción" <;>
    cases h2 : strHasSub (pyLower details) "iluminación" <;>
      cases h3 : strHasSub (pyLower details) "electrodomésticos" <;>
        simp [h1, h2, h3, List.filter]

/-- Tier order is monotone in the per-person value. -/
lemma tierOrd_levelOf_mono (stats : Stats) (pp1 pp2 : ℚ) (h : pp1 ≤ pp2) :
    tierOrd (levelOf stats pp1) ≤ tierOrd (levelOf stats pp2) := by
  unfold levelOf
  split_ifs <;> first | decide | linarith

/-- A `"bajo"` classification pins the per-person value below `mean - stddev`. -/
lemma levelOf_eq_bajo (stats : Stats) (pp : ℚ) (h : levelOf stats pp = "bajo") :
    pp < stats.mean - stats.stddev := by
  unfold levelOf at h
  split_ifs at h with h1 h2
  · exact absurd h (by decide)
  · exact h2
  · exact absurd h (by decide)

/-- An `"alto"` classification pins the per-person value above `mean + stddev`. -/
lemma levelOf_eq_alto (stats : Stats) (pp : ℚ) (h : levelOf stats pp = "alto") :
    stats.mean + stats.stddev < pp := by
  unfold levelOf at h
  split_ifs at h with h1 h2
  · exact h1
  · exact absurd h (by decide)
  · exact absurd h (by decide)

/-- C8: classification is monotonic in consumption: for fixed
`people > 0` and fixed statistics, `c1 < c2` never decreases the tier
under the order `"bajo" < "normal" < "alto"`, and a jump from `"bajo"` to
`"alto"` passes over a consumption classified `"normal"`. -/
theorem C8_monotone (stats : Stats) (people : ℤ) (c1 c2 : ℚ)
    (hp : 0 < people) (h12 : c1 < c2) (hs : 0 ≤ stats.stddev) :
    tierOrd (levelOf stats (c1 / (people : ℚ))) ≤ tierOrd (levelOf stats (c2 / (people : ℚ))) ∧
    (levelOf stats (c1 / (people : ℚ)) = "bajo" → levelOf stats (c2 / (people : ℚ)) = "alto" →
      ∃ c, c1 < c ∧ c < c2 ∧ levelOf stats (c / (people : ℚ)) = "normal") := by
  have hpQ : (0 : ℚ) < (people : ℚ) := by exact_mod_cast hp
  have hpp : c1 / (people : ℚ) ≤ c2 / (people : ℚ) := by
    gcongr
  constructor
  · exact tierOrd_levelOf_mono stats _ _ hpp
  · intro hb ha
    have h1 := levelOf_eq_bajo stats _ hb
    have h2 := levelOf_eq_alto stats _ ha
    refine ⟨(people : ℚ) * (stats.mean - stats.stddev), ?_, ?_, ?_⟩
    · have := (div_lt_iff₀ hpQ).mp h1
      nlinarith
    · have h3 : stats.mean - stats.stddev < c2 / (people : ℚ) := by linarith
      have := (lt_div_iff₀ hpQ).mp h3
      nlinarith
    · rw [mul_div_cancel_left₀ _ (ne_of_gt hpQ)]
      unfold levelOf
      rw [if_neg (by linarith), if_neg (lt_irrefl _)]

/-- Witness for C8 at `stats = ⟨100, 10⟩`, `people = 1`, `c1 = 80`,
`c2 = 120`. -/
theorem C8_monotone_witness :
    tierOrd (levelOf ⟨100, 10⟩ ((80 : ℚ) / ((1 : ℤ) : ℚ))) ≤
      tierOrd (levelOf ⟨100, 10⟩ ((120 : ℚ) / ((1 : ℤ) : ℚ))) :=
  (C8_monotone ⟨100, 10⟩ 1 80 120 (by decide) (by norm_num) (by norm_num)).1

/-- C2: for tiers `"alto"` and `"normal"`, with threshold `mean + stddev`
resp. `mean - stddev` and `excess = per_person - threshold`, the savings
sentence is appended to the tier-specific list if and only if
`excess > 0`, and it reports `kwh_saved = excess * people` and
`money_saved = kwh_saved * price_per_kwh` at two-decimal rendering; for
tier `"bajo"` no savings line is ever appended. -/
theorem C2_savings (stats : Stats) (c : ℚ) (p : ℤ) (price : ℚ) (hp : p ≠ 0) :
    ((get_consumption_level stats (c / (p : ℚ))).1 = "alto" →
      get_recommendations stats c p price =
        .ok (mkBundle stats "alto"
          (altoList (c / (p : ℚ)) ++
            (if 0 < c / (p : ℚ) - (stats.mean + stats.stddev) then
              [notaAlto ((c / (p : ℚ) - (stats.mean + stats.stddev)) * (p : ℚ))
                        ((c / (p : ℚ) - (stats.mean + stats.stddev)) * (p : ℚ) * price) price]
             else [])))) ∧
    ((get_consumption_level stats (c / (p : ℚ))).1 = "normal" →
      get_recommendations stats c p price =
        .ok (mkBundle stats "normal"
          (normalList (c / (p : ℚ)) ++
            (if 0 < c / (p : ℚ) - (stats.mean - stats.stddev) then
              [notaNormal ((c / (p : ℚ) - (stats.mean - stats.stddev)) * (p : ℚ))
                          ((c / (p : ℚ) - (stats.mean - stats.stddev)) * (p : ℚ) * price) price]
             else [])))) ∧
    ((get_consumption_level stats (c / (p : ℚ))).1 = "bajo" →
      get_recommendations stats c p price = .ok (mkBundle stats "bajo" (bajoList (c / (p : ℚ))))) :=
  ⟨grec_alto stats c p price hp, grec_normal stats c p price hp, grec_bajo stats c p price hp⟩

/-- Witness for C2 at `stats = ⟨100, 10⟩`, `consumption = 500`,
`people = 4`, `price = 2`: tier `"alto"`, excess `15 > 0`, savings note
reporting `60` kWh and `$120`. -/
theorem C2_savings_witness :
    get_recommendations ⟨100, 10⟩ 500 4 2 =
      .ok (mkBundle ⟨100, 10⟩ "alto" (altoList (125 : ℚ) ++ [notaAlto 60 120 2])) :=
  (C2_savings ⟨100, 10⟩ 500 4 2 (by decide)).1 (by decide)

/-- C3 counterexample: `get_recommendations` performs no validation of
`people`: called with `people = -1` it returns a result instead of failing
with `InvalidInput`. -/
theorem C3_counterexample :
    isOkE (get_recommendations ⟨100, 10⟩ 50 (-1) 5) = true := by
  decide

/-- C3 (amended): the one-shot advice operation (absent from src/main.py;
modelled from the spec) fails with a client error whenever
`consumption <= 0` or `people <= 0`; the Classifier/Recommendation-Generator
path itself performs no people validation: for every `people ≠ 0` -
negative values included - it returns a result, and `people = 0` fails with
a division-by-zero error rather than `InvalidInput`. -/
theorem C3_people_validation :
    (∀ (stats : Stats) (c : ℚ) (p : ℤ) (price : ℚ), c ≤ 0 ∨ p ≤ 0 →
      one_shot_advice stats c p price = .error .invalidInput) ∧
    (∀ (stats : Stats) (c : ℚ) (p : ℤ) (price : ℚ), p ≠ 0 →
      isOkE (get_recommendations stats c p price) = true) ∧
    (∀ (stats : Stats) (c price : ℚ),
      get_recommendations stats c 0 price = .error .zeroDivision) := by
  refine ⟨?_, ?_, ?_⟩
  · intro stats c p price h
    unfold one_shot_advice
    rw [if_pos h]
  · intro stats c p price hp
    obtain ⟨b, hb⟩ := grec_ok_exists stats c p price hp
    rw [hb]
    rfl
  · intro stats c price
    unfold get_recommendations
    rw [if_pos rfl]

/-- Witness for C3 at concrete inputs: the spec-modelled one-shot call
rejects `people = -1`, while the generator itself accepts it, and
`people = 0` raises a division error. -/
theorem C3_people_validation_witness :
    one_shot_advice ⟨100, 10⟩ 50 (-1) 5 = .error .invalidInput ∧
    isOkE (get_recommendations ⟨100, 10⟩ 50 (-2) 5) = true ∧
    get_recommendations ⟨100, 10⟩ 50 0 5 = .error .zeroDivision :=
  ⟨C3_people_validation.1 ⟨100, 10⟩ 50 (-1) 5 (Or.inr (by decide)),
   C3_people_validation.2.1 ⟨100, 10⟩ 50 (-2) 5 (by decide),
   C3_people_validation.2.2 ⟨100, 10⟩ 50 5⟩

/-- Dispatch lemma: the step-2 branch of `process_message`. -/
lemma process_message_step2 (stats : Stats) (state : ChatState) (msg : String)
    (h : state.step = 2) :
    process_message stats state msg =
      match pyInt msg with
      | none => .ok (state, "Por favor, ingresa un número válido para el número de personas.")
      | some people =>
        if people ≤ 0 then
          .ok (state, "Por favor, ingresa un número válido de personas (mayor que 0).")
        else
          .ok ({state with people := some people, step := 3},
               "Perfecto. ¿Cuál es el consumo mensual en kWh?") := by
  unfold process_message
  rw [h]
  norm_num

/-- Dispatch lemma: the step-3 branch of `process_message`. -/
lemma process_message_step3 (stats : Stats) (state : ChatState) (msg : String)
    (h : state.step = 3) :
    process_message stats state msg =
      match pyFloat msg with
      | none => .ok (state, "Por favor, ingresa un número válido para el consumo.")
      | some consumption =>
        if consumption ≤ 0 then
          .ok (state, "El consumo debe ser mayor que 0. Inténtalo de nuevo.")
        else
          .ok ({state with consumption := some consumption, step := 4},
               "¿Cuál es el costo por kWh en tu región? (Si no lo sabes, puedes dejar el valor predeterminado de $1000 pesos)") := by
  unfold process_message
  rw [h]
  norm_num

/-- Dispatch lemma: the step-4 branch of `process_message`. -/
lemma process_message_step4 (stats : Stats) (state : ChatState) (msg : String)
    (h : state.step = 4) :
    process_message stats state msg =
      match (if pyStrip msg ≠ "" then pyFloat msg else some 1000) with
      | none => .ok (state, "Por favor, ingresa un número válido para el costo por kWh.")
      | some price =>
        if price ≤ 0 then
          .ok (state, "El costo por kWh debe ser mayor que 0. Inténtalo de nuevo.")
        else
          let st := {state with price_per_kwh := some price, step := 5}
          match st.consumption with
          | none => .error .keyError
          | some c =>
            match st.people with
            | none => .error .keyError
            | some p =>
              match get_recommendations stats c p price with
              | .error e => .error e
              | .ok recs =>
                match st.name with
                | none => .error .keyError
                | some n =>
                  .ok (st, String.intercalate "\n"
                    (["Análisis realizado para " ++ n ++ ":",
                      "Consumo mensual: " ++ pyFloatStr c ++ " kWh con " ++ toString p ++ " personas.",
                      "Nivel de consumo: " ++ pyCapitalize recs.consumption_level,
                      "Recomendaciones generales:"]
                     ++ recs.general.map (fun r => "- " ++ r)
                     ++ ["Recomendaciones específicas:"]
                     ++ recs.specific.map (fun r => "- " ++ r)
                     ++ ["¿Deseas proporcionar más detalles para obtener recomendaciones adicionales? (responde \x27sí\x27 o \x27no\x27)"])) := by
  unfold process_message
  rw [h]
  norm_num

/-- Dispatch lemma: the step-5 branch of `process_message`. -/
lemma process_message_step5 (stats : Stats) (state : ChatState) (msg : String)
    (h : state.step = 5) :
    process_message stats state msg =
      if (["sí", "si"]).contains (pyLower (pyStrip msg)) then
        .ok ({state with step := 6},
             "Por favor, proporciona más detalles sobre tu situación (ej. problemas específicos o áreas a mejorar):")
      else
        .ok (resetState,
             "¡Gracias por utilizar nuestro servicio! Si quieres empezar de nuevo, di \x27hola\x27.") := by
  unfold process_message
  rw [h]
  norm_num

/-- Dispatch lemma: an out-of-range step reaches the final `else` branch of
`process_message`. -/
lemma process_message_step_other (stats : Stats) (state : ChatState) (msg : String)
    (h : state.step < 0 ∨ 6 < state.step) :
    process_message stats state msg =
      .ok (state, "Lo siento, ha ocurrido un error en la conversación.") := by
  unfold process_message
  rw [if_neg (by omega : ¬ state.step = 0), if_neg (by omega : ¬ state.step = 1),
      if_neg (by omega : ¬ state.step = 2), if_neg (by omega : ¬ state.step = 3),
      if_neg (by omega : ¬ state.step = 4), if_neg (by omega : ¬ state.step = 5),
      if_neg (by omega : ¬ state.step = 6)]

/-- C4 counterexample: at step 4 the empty message is non-numeric
(`float("")` fails), yet the turn does not re-prompt: the default-price
path runs and the step advances to 5, refuting the claim as stated for
step 4. -/
theorem C4_counterexample :
    pyFloat "" = none ∧
    resultState (process_message ⟨100, 10⟩ ⟨4, some "Ana", some 4, some 300, none, none⟩ "") =
      some ⟨5, some "Ana", some 4, some 300, some 1000, none⟩ := by
  constructor
  · rfl
  · decide

/-- C4 (amended): for every conversational turn at step 2 or 3 whose
message is non-numeric or parses to a non-positive number, and at step 4
for such messages whose stripped text is nonempty (an empty/whitespace
message instead takes the default-price path), the reply is a validation
prompt, no exception reaches the caller, and the whole state - step
included - is unchanged. -/
theorem C4_validation (stats : Stats) (state : ChatState) (msg : String)
    (h : (state.step = 2 ∧ badIntB msg = true) ∨
         (state.step = 3 ∧ badFloatB msg = true) ∨
         (state.step = 4 ∧ pyStrip msg ≠ "" ∧ badFloatB msg = true)) :
    resultState (process_message stats state msg) = some state ∧
    validationReplies.contains (resultReply (process_message stats state msg)) = true := by
  rcases h with ⟨h2, hb⟩ | ⟨h3, hb⟩ | ⟨h4, hne, hb⟩
  · unfold badIntB at hb
    rw [process_message_step2 stats state msg h2]
    cases hmi : pyInt msg with
    | none => exact ⟨rfl, by rfl⟩
    | some n =>
      rw [hmi] at hb
      dsimp only
      rw [if_pos (of_decide_eq_true hb)]
      exact ⟨rfl, by rfl⟩
  · unfold badFloatB at hb
    rw [process_message_step3 stats state msg h3]
    cases hmf : pyFloat msg with
    | none => exact ⟨rfl, by rfl⟩
    | some q =>
      rw [hmf] at hb
      dsimp only
      rw [if_pos (of_decide_eq_true hb)]
      exact ⟨rfl, by rfl⟩
  · unfold badFloatB at hb
    rw [process_message_step4 stats state msg h4, if_pos hne]
    cases hmf : pyFloat msg with
    | none => exact ⟨rfl, by rfl⟩
    | some q =>
      rw [hmf] at hb
      dsimp only
      rw [if_pos (of_decide_eq_true hb)]
      exact ⟨rfl, by rfl⟩

/-- Witness for C4 (amended) at step 2 with message `"-3"`: the state is
returned unchanged and the reply is a validation prompt. -/
theorem C4_validation_witness :
    resultState (process_message ⟨100, 10⟩ ⟨2, some "Ana", none, none, none, none⟩ "-3") =
      some ⟨2, some "Ana", none, none, none, none⟩ ∧
    validationReplies.contains
      (resultReply (process_message ⟨100, 10⟩ ⟨2, some "Ana", none, none, none, none⟩ "-3")) = true :=
  C4_validation ⟨100, 10⟩ ⟨2, some "Ana", none, none, none, none⟩ "-3" (Or.inl ⟨rfl, by decide⟩)

/-- C5: at step 5, a trimmed lowercased message equal to `"sí"` or `"si"`
moves the state to step 6 with the details prompt; any other message
resets the state to step 0 with the default name `"Usuario"` and all other
collected fields dropped, replying with the closing message. -/
theorem C5_continue_or_reset (stats : Stats) (state : ChatState) (msg : String)
    (h : state.step = 5) :
    ((pyLower (pyStrip msg) = "sí" ∨ pyLower (pyStrip msg) = "si") →
      process_message stats state msg = .ok ({state with step := 6},
        "Por favor, proporciona más detalles sobre tu situación (ej. problemas específicos o áreas a mejorar):")) ∧
    (pyLower (pyStrip msg) ≠ "sí" → pyLower (pyStrip msg) ≠ "si" →
      process_message stats state msg = .ok (resetState,
        "¡Gracias por utilizar nuestro servicio! Si quieres empezar de nuevo, di \x27hola\x27.")) := by
  rw [process_message_step5 stats state msg h]
  constructor
  · intro hy
    have hc : (["sí", "si"]).contains (pyLower (pyStrip msg)) = true := by
      rcases hy with hy | hy <;> rw [hy] <;> decide
    rw [if_pos hc]
  · intro h1 h2
    have hc : (["sí", "si"]).contains (pyLower (pyStrip msg)) = false := by
      cases hcc : (["sí", "si"]).contains (pyLower (pyStrip msg)) with
      | false => rfl
      | true =>
        have : pyLower (pyStrip msg) = "sí" ∨ pyLower (pyStrip msg) = "si" := by
          simpa using hcc
        rcases this with hci | hci
        · exact absurd hci h1
        · exact absurd hci h2
    rw [if_neg (by rw [hc]; exact Bool.false_ne_true)]

/-- Witness for C5: at step 5 the message `"no"` resets the state and
returns the closing message. -/
theorem C5_continue_or_reset_witness :
    process_message ⟨100, 10⟩ ⟨5, some "Ana", some 4, some 300, some 1000, none⟩ "no" =
      .ok (resetState,
        "¡Gracias por utilizar nuestro servicio! Si quieres empezar de nuevo, di \x27hola\x27.") :=
  (C5_continue_or_reset ⟨100, 10⟩ ⟨5, some "Ana", some 4, some 300, some 1000, none⟩ "no" rfl).2
    (by decide) (by decide)

/-- C9: for every state whose step is outside 0..6, processing a turn
surfaces the fixed protocol-error reply and leaves the state unchanged -
the conversation cannot advance (terminal) and is not silently recovered
to a valid step. -/
theorem C9_protocol_error (stats : Stats) (state : ChatState) (msg : String)
    (h : state.step < 0 ∨ 6 < state.step) :
    process_message stats state msg =
      .ok (state, "Lo siento, ha ocurrido un error en la conversación.") :=
  process_message_step_other stats state msg h

/-- Witness for C9 at step 7. -/
theorem C9_protocol_error_witness :
    process_message ⟨100, 10⟩ ⟨7, none, none, none, none, none⟩ "hola" =
      .ok (⟨7, none, none, none, none, none⟩,
        "Lo siento, ha ocurrido un error en la conversación.") :=
  C9_protocol_error ⟨100, 10⟩ ⟨7, none, none, none, none, none⟩ "hola" (Or.inr (by decide))

/-- At step 4, a message whose stripped text is empty stores the default
price 1000 and advances to step 5 (shared by the price-default claims). -/
lemma step4_default (stats : Stats) (state : ChatState) (msg : String)
    (c : ℚ) (p : ℤ) (n : String)
    (h4 : state.step = 4) (he : pyStrip msg = "")
    (hc : state.consumption = some c) (hp : state.people = some p) (hp0 : p ≠ 0)
    (hn : state.name = some n) :
    resultState (process_message stats state msg) =
      some {state with price_per_kwh := some 1000, step := 5} := by
  rw [process_message_step4 stats state msg h4,
      if_neg (not_not_intro he)]
  have h1000 : ¬ (1000 : ℚ) ≤ 0 := by norm_num
  obtain ⟨b, hb⟩ := grec_ok_exists stats c p 1000 hp0
  simp only [h1000, ite_false, hc, hp, hb, hn]
  rfl

/-- C7 counterexample: `get_recommendations` called with
`price_per_kwh = -5` returns a result (with the negative price flowing
into the savings figure) instead of failing with `InvalidInput`. -/
theorem C7_counterexample :
    isOkE (get_recommendations ⟨100, 10⟩ 500 4 (-5)) = true := by
  decide

/-- C7 (amended): the recommendation generator itself performs no price
validation - it returns a result for every price whenever `people ≠ 0`;
the conversational turn at step 4 is where a non-positive parsed price is
rejected, with a validation reply and unchanged state; and at step 4 an
empty price message stores the documented default of 1000 currency units
and advances to step 5 instead of failing. -/
theorem C7_price_validation :
    (∀ (stats : Stats) (c : ℚ) (p : ℤ) (price : ℚ), p ≠ 0 →
      isOkE (get_recommendations stats c p price) = true) ∧
    (∀ (stats : Stats) (state : ChatState) (msg : String) (q : ℚ),
      state.step = 4 → pyFloat msg = some q → q ≤ 0 →
      process_message stats state msg =
        .ok (state, "El costo por kWh debe ser mayor que 0. Inténtalo de nuevo.")) ∧
    (∀ (stats : Stats) (state : ChatState) (msg : String) (c : ℚ) (p : ℤ) (n : String),
      state.step = 4 → pyStrip msg = "" → state.consumption = some c →
      state.people = some p → p ≠ 0 → state.name = some n →
      resultState (process_message stats state msg) =
        some {state with price_per_kwh := some 1000, step := 5}) := by
  refine ⟨?_, ?_, ?_⟩
  · intro stats c p price hp
    obtain ⟨b, hb⟩ := grec_ok_exists stats c p price hp
    rw [hb]
    rfl
  · intro stats state msg q h4 hq hql
    by_cases hemp : pyStrip msg = ""
    · rw [pyFloat_of_strip_empty msg hemp] at hq
      exact absurd hq (by simp)
    · rw [process_message_step4 stats state msg h4, if_pos hemp, hq]
      dsimp only
      rw [if_pos hql]
  · intro stats state msg c p n h4 he hc hp hp0 hn
    exact step4_default stats state msg c p n h4 he hc hp hp0 hn

/-- Witness for C7 at concrete inputs: negative price accepted by the
generator, rejected at step 4, and empty message defaulting to 1000. -/
theorem C7_price_validation_witness :
    isOkE (get_recommendations ⟨100, 10⟩ 500 4 (-5)) = true ∧
    process_message ⟨100, 10⟩ ⟨4, some "Luis", some 2, some 200, none, none⟩ "-2" =
      .ok (⟨4, some "Luis", some 2, some 200, none, none⟩,
        "El costo por kWh debe ser mayor que 0. Inténtalo de nuevo.") ∧
    resultState (process_message ⟨100, 10⟩ ⟨4, some "Luis", some 2, some 200, none, none⟩ "") =
      some ⟨5, some "Luis", some 2, some 200, some 1000, none⟩ :=
  ⟨C7_price_validation.1 ⟨100, 10⟩ 500 4 (-5) (by decide),
   C7_price_validation.2.1 ⟨100, 10⟩ ⟨4, some "Luis", some 2, some 200, none, none⟩ "-2" (-2)
     rfl (by decide) (by norm_num),
   C7_price_validation.2.2 ⟨100, 10⟩ ⟨4, some "Luis", some 2, some 200, none, none⟩ "" 200 2 "Luis"
     rfl rfl rfl rfl (by decide) rfl⟩

/-- C10: at step 4, any message consisting only of whitespace - not just
the empty string - takes the default-price path, because the message is
stripped before the emptiness test: the stored `price_per_kwh` is 1000 and
the dialogue advances to step 5. -/
theorem C10_whitespace_default (stats : Stats) (state : ChatState) (msg : String)
    (c : ℚ) (p : ℤ) (n : String)
    (h4 : state.step = 4) (he : pyStrip msg = "")
    (hc : state.consumption = some c) (hp : state.people = some p) (hp0 : p ≠ 0)
    (hn : state.name = some n) :
    resultState (process_message stats state msg) =
      some {state with price_per_kwh := some 1000, step := 5} :=
  step4_default stats state msg c p n h4 he hc hp hp0 hn

/-- Witness for C10: a three-space message at step 4 stores the default
price 1000 and moves to step 5. -/
theorem C10_whitespace_default_witness :
    resultState (process_message ⟨100, 10⟩ ⟨4, some "Ana", some 4, some 300, none, none⟩ "   ") =
      some ⟨5, some "Ana", some 4, some 300, some 1000, none⟩ :=
  C10_whitespace_default ⟨100, 10⟩ ⟨4, some "Ana", some 4, some 300, none, none⟩ "   " 300 4 "Ana"
    rfl rfl rfl rfl (by decide) rfl
